import Mathlib

/-!
Verification of the pytoolbox repository slice: the EXIF `Photo` accessor
(`pytoolbox/multimedia/exif/photo.py`) and the Django model mixins exercised by
`tests_todo/models.py` (`AutoUpdateFieldsMixin`, `BetterUniquenessErrorsMixin`).

Python values relevant to the accessor are embedded as `PyVal` (None, a rational
number, or a string) with Python truthiness. Numeric EXIF getters are embedded
as `Option ℚ` (Python `None` or a number); the orientation getter returns an
optional enum object carrying a `value_nick` name.
-/

/-- Embedding of the Python values the Photo accessor can hand back:
`None`, a number, or a string. -/
inductive PyVal where
  | vnone : PyVal
  | num : ℚ → PyVal
  | str : String → PyVal
deriving DecidableEq

/-- Python truthiness on the embedded values: `None`, `0` and `""` are falsy. -/
def PyVal.truthy : PyVal → Bool
  | .vnone => false
  | .num q => decide (q ≠ 0)
  | .str s => decide (s ≠ "")

/-- Embed an optional number as a Python value (`None` for `none`). -/
def PyVal.ofNum : Option ℚ → PyVal
  | none => .vnone
  | some q => .num q

/-- Embed an optional string as a Python value (`None` for `none`). -/
def PyVal.ofStr : Option String → PyVal
  | none => .vnone
  | some s => .str s

/-- Truthiness of an optional number: absent (`None`) and `0` are falsy. -/
def optTruthy : Option ℚ → Bool
  | none => false
  | some q => decide (q ≠ 0)

/-- The orientation object returned by `exiv2.get_orientation()`: an enum value
exposing its symbolic name through `value_nick`. -/
structure ExifOrientation where
  value_nick : String
deriving DecidableEq

/-- The `metadata.exiv2` accessor consumed by `Photo`: one getter per EXIF tag
(see the external-interface list of the metadata object). A `none` reading is
Python `None`. -/
structure Exiv2 where
  get_fnumber : Option ℚ
  get_exposure_time : Option ℚ
  get_focal_length : Option ℚ
  get_pixel_height : Option ℚ
  get_pixel_width : Option ℚ
  get_iso_speed : Option ℚ
  get_orientation : Option ExifOrientation
deriving DecidableEq

/-- The metadata object wrapped by `Photo`: the nested `exiv2` accessor plus the
`get_date` getter, whose result `Photo.date` passes through unchanged. -/
structure Metadata where
  exiv2 : Exiv2
  get_date : PyVal
deriving DecidableEq

/-- `Photo.__init__`: the accessor just stores the metadata object. -/
structure Photo where
  metadata : Metadata
deriving DecidableEq

/-- `Photo.clean_number`: `number if number and number > 0 else None`.
A falsy (`None` or `0`) or non-positive number yields `None`. -/
def Photo.clean_number : Option ℚ → Option ℚ
  | none => none
  | some n => if n ≠ 0 ∧ 0 < n then some n else none

/-- Python `x or None`, used by the `exposure_time`, `height`, `iso` and
`width` properties: a falsy reading becomes `None`. -/
def pyOrNone : Option ℚ → Option ℚ
  | none => none
  | some q => if q ≠ 0 then some q else none

/-- `Photo.aperture`: `clean_number(metadata.exiv2.get_fnumber())`. -/
def Photo.aperture (p : Photo) : Option ℚ :=
  Photo.clean_number p.metadata.exiv2.get_fnumber

/-- `Photo.date`: `metadata.get_date()`, returned unchanged. -/
def Photo.date (p : Photo) : PyVal :=
  p.metadata.get_date

/-- `Photo.exposure_time`: `metadata.exiv2.get_exposure_time() or None`. -/
def Photo.exposure_time (p : Photo) : Option ℚ :=
  pyOrNone p.metadata.exiv2.get_exposure_time

/-- `Photo.focal_length`: `clean_number(metadata.exiv2.get_focal_length())`. -/
def Photo.focal_length (p : Photo) : Option ℚ :=
  Photo.clean_number p.metadata.exiv2.get_focal_length

/-- `Photo.height`: `metadata.exiv2.get_pixel_height() or None`. -/
def Photo.height (p : Photo) : Option ℚ :=
  pyOrNone p.metadata.exiv2.get_pixel_height

/-- `Photo.iso`: `metadata.exiv2.get_iso_speed() or None`. -/
def Photo.iso (p : Photo) : Option ℚ :=
  pyOrNone p.metadata.exiv2.get_iso_speed

/-- `Photo.orientation`: `orientation.value_nick if orientation else None`. -/
def Photo.orientation (p : Photo) : Option String :=
  match p.metadata.exiv2.get_orientation with
  | some o => some o.value_nick
  | none => none

/-- `Photo.width`: `metadata.exiv2.get_pixel_width() or None`. -/
def Photo.width (p : Photo) : Option ℚ :=
  pyOrNone p.metadata.exiv2.get_pixel_width

/-- The names of the properties declared on the `Photo` class, in the sorted
order produced by `inspect.getmembers`. -/
def Photo.propertyNames : List String :=
  ["aperture", "date", "exposure_time", "focal_length",
   "height", "iso", "orientation", "width"]

/-- `Photo.properties`: one `(name, getattr(self, name))` pair for every
property `inspect.getmembers` finds on the class, in sorted-name order. -/
def Photo.properties (p : Photo) : List (String × PyVal) :=
  [("aperture", PyVal.ofNum p.aperture),
   ("date", p.date),
   ("exposure_time", PyVal.ofNum p.exposure_time),
   ("focal_length", PyVal.ofNum p.focal_length),
   ("height", PyVal.ofNum p.height),
   ("iso", PyVal.ofNum p.iso),
   ("orientation", PyVal.ofStr p.orientation),
   ("width", PyVal.ofNum p.width)]

/-- A reference identifying a Python object. In-place mutation of a container
changes the object behind a reference but not the reference itself, so an
instance whose attribute stores a reference is untouched by such a mutation. -/
abbrev Ref := Nat

/-- The kinds of Django model fields distinguished by the dirty-field tracking
contract: plain concrete fields, foreign keys (including one-to-one), and
many-to-many-style relations (including reverse relations such as
`child_set`). -/
inductive FieldKind where
  | concrete : FieldKind
  | foreignKey : FieldKind
  | manyToMany : FieldKind
deriving DecidableEq

/-- Modelled from the spec: the implementation of
`pytoolbox.django.models.mixins.AutoUpdateFieldsMixin` is not under `src/`
(only its tests in `tests_todo/models.py` are). An in-memory model instance:
whether it has been persisted at least once, its attribute store (attribute
name to object reference), and the per-instance set `_setted_fields` of dirty
keys. -/
structure Instance where
  saved : Bool
  attrs : List (String × Ref)
  setted_fields : Finset String
deriving DecidableEq

/-- Look up the reference currently stored under an attribute name. -/
def Instance.getattr (inst : Instance) (name : String) : Option Ref :=
  inst.attrs.lookup name

/-- Store a reference under an attribute name, replacing any previous one. -/
def storeAttr (attrs : List (String × Ref)) (name : String) (v : Ref) :
    List (String × Ref) :=
  (name, v) :: attrs.filter (fun p => p.1 ≠ name)

/-- The dirty key recorded for an assignment to a field of the given kind:
a foreign key tracks the underlying identifier key `name + "_id"`, a
many-to-many-style relation is excluded from tracking, and any other
attribute tracks its own name. -/
def markKey : FieldKind → String → Option String
  | .manyToMany, _ => none
  | .foreignKey, name => some (name ++ "_id")
  | .concrete, name => some name

/-- Modelled from the spec: `AutoUpdateFieldsMixin.__setattr__` is not under
`src/`. Assigning an attribute stores the value and, for a tracked field kind
on an already-persisted instance, adds the field's dirty key to
`_setted_fields`. Marking depends only on the assignment happening, not on the
assigned value (glossary: a dirty field is tracked "independently of whether
its value actually changed"); where the contract prose in the spec disagrees
with the test assertions in `src/tests_todo/models.py` (marking on
reassignment of the same object in `test_mutable`, no marking before the
first save in `test_required_one_to_one` and `setUp`), the tests — the only
code of the mixin's behaviour under `src/` — are followed. Many-to-many-style
assignments persist immediately through the relation manager and leave the
instance unchanged. -/
def Instance.setattr (inst : Instance) (kind : FieldKind) (name : String)
    (v : Ref) : Instance :=
  match markKey kind name with
  | none => inst
  | some key =>
      { inst with
        attrs := storeAttr inst.attrs name v,
        setted_fields :=
          if inst.saved then insert key inst.setted_fields
          else inst.setted_fields }

/-- Modelled from the spec: `AutoUpdateFieldsMixin.save` is not under `src/`.
A successful persist marks the instance saved and clears `_setted_fields`. -/
def Instance.save (inst : Instance) : Instance :=
  { inst with saved := true, setted_fields := ∅ }

/-- Django's key for errors attached to no particular field. -/
def NON_FIELD_ERRORS : String := "__all__"

/-- A structured validation error: the mapping from field name to error codes,
plus the optional `unique_check` parameter listing implicated field names. -/
structure VError where
  error_dict : List (String × List String)
  params_unique_check : Option (List String)
deriving DecidableEq

/-- Outcome of validating one violated combined-uniqueness constraint: the
raised validation error, if any, and how many times the overridable
`_handle_hidden_duplicate_key_error` hook was called. -/
structure UniqueOutcome where
  error : Option VError
  hook_calls : Nat
deriving DecidableEq

/-- Modelled from the spec: the implementation of
`pytoolbox.django.models.mixins.BetterUniquenessErrorsMixin` is not under
`src/` (only its tests in `tests_todo/models.py` are). Given the field names
of a violated combined-uniqueness constraint and the configured
`unique_together_hide_fields`, the fields still implicated after hiding
determine the outcome: exactly one field left yields a single-field error
with code "unique"; several fields left yield an error on the non-field key
with code "unique_together" and the implicated names as the `unique_check`
parameter; no field left raises nothing and delegates to the hidden-duplicate
hook exactly once. Both `validate_unique` and `save` report violations
through this path. -/
def performUniqueChecks (unique_check hide_fields : List String) :
    UniqueOutcome :=
  match unique_check.filter (fun f => !hide_fields.contains f) with
  | [] => ⟨none, 1⟩
  | [f] => ⟨some ⟨[(f, ["unique"])], none⟩, 0⟩
  | fs => ⟨some ⟨[(NON_FIELD_ERRORS, ["unique_together"])], some fs⟩, 0⟩

/-- Concrete metadata whose `get_date` reading is falsy but not `None`
(the empty string), all other readings absent. -/
def mdFalsyDate : Metadata :=
  ⟨⟨none, none, none, none, none, none, none⟩, PyVal.str ""⟩

/-- Concrete metadata with every reading falsy: zero f-number, zero exposure
time, zero focal length, zero dimensions, zero ISO, no orientation, `None`
date. -/
def mdAllFalsy : Metadata :=
  ⟨⟨some 0, some 0, some 0, some 0, some 0, some 0, none⟩, PyVal.vnone⟩

/-- Concrete metadata with invalid (negative) f-number and focal length
readings and falsy readings everywhere else. -/
def mdNegative : Metadata :=
  ⟨⟨some (-1), some 0, some (-3), none, some 0, none, none⟩,
    PyVal.vnone⟩

/-- Concrete metadata with positive f-number and focal length readings. -/
def mdPositive : Metadata :=
  ⟨⟨some 2, none, some 3, none, none, none, none⟩, PyVal.vnone⟩

/-- The `Node` instance of `test_mutable` right after `save()`: persisted,
dirty-key set cleared, and the `metadata` attribute still holding the same
container object (reference `7`) that the test then mutates in place. -/
def nodeAfterSave : Instance := ⟨true, [("metadata", 7)], ∅⟩

/-- A persisted instance with an empty dirty-key set, as produced by
`Node.objects.create` in `test_foreign_key`. -/
def nodeFresh : Instance := ⟨true, [], ∅⟩

/-- The `Profile()` instance of `test_required_one_to_one`: never persisted,
no attributes stored, dirty-key set empty. -/
def profileNew : Instance := ⟨false, [], ∅⟩

/-- A falsy reading makes `clean_number` return `None`. -/
theorem clean_number_falsy (g : Option ℚ) (h : optTruthy g = false) :
    Photo.clean_number g = none := by
  cases g with
  | none => rfl
  | some q =>
      simp only [optTruthy, decide_eq_false_iff_not, not_not] at h
      subst h
      simp [Photo.clean_number]

/-- A non-positive reading makes `clean_number` return `None`. -/
theorem clean_number_nonpos (q : ℚ) (h : q ≤ 0) :
    Photo.clean_number (some q) = none := by
  simp only [Photo.clean_number, ite_eq_right_iff]
  rintro ⟨-, hpos⟩
  exact absurd hpos (not_lt.mpr h)

/-- `clean_number` only ever returns `None` or a positive number. -/
theorem clean_number_pos (g : Option ℚ) (q : ℚ)
    (h : Photo.clean_number g = some q) : 0 < q := by
  cases g with
  | none => exact absurd h (by simp [Photo.clean_number])
  | some n =>
      by_cases hn : n ≠ 0 ∧ 0 < n
      · rw [Photo.clean_number, if_pos hn] at h
        cases h
        exact hn.2
      · rw [Photo.clean_number, if_neg hn] at h
        exact absurd h (by simp)

/-- A falsy reading makes Python `x or None` return `None`. -/
theorem pyOrNone_falsy (g : Option ℚ) (h : optTruthy g = false) :
    pyOrNone g = none := by
  cases g with
  | none => rfl
  | some q =>
      simp only [optTruthy, decide_eq_false_iff_not, not_not] at h
      subst h
      simp [pyOrNone]

/-- Filtering with an empty hidden-field list keeps every field. -/
theorem filter_no_hidden (uc : List String) :
    uc.filter (fun f => !([] : List String).contains f) = uc := by
  induction uc with
  | nil => rfl
  | cons a rest ih => simp [List.filter, ih]

/-- C1 counterexample: in the state of `test_mutable` right after `save()`,
the `metadata` attribute already holds reference 7 (the container just mutated
in place), the dirty-key set is empty, and re-assigning that same reference
DOES add the storage key `metadata` — the test asserts
`_setted_fields == {'metadata'}` (models.py line 82), contradicting the
claim that it is not added. -/
theorem same_container_reassign_is_marked :
    Instance.getattr nodeAfterSave "metadata" = some 7 ∧
    nodeAfterSave.setted_fields = ∅ ∧
    (Instance.setattr nodeAfterSave .concrete "metadata" 7).setted_fields =
      {"metadata"} := by
  decide

/-- C1 (amended): for a persisted instance, assigning a mutable container
attribute marks its storage key dirty even when the assigned reference is the
very object already stored (after in-place mutation); only the in-place
mutation itself, which never touches the instance, leaves the dirty-key set
unchanged. -/
theorem assignment_marks_regardless_of_value (inst : Instance) (name : String)
    (v : Ref) (hsaved : inst.saved = true)
    (hsame : inst.getattr name = some v) :
    (inst.setattr .concrete name v).setted_fields =
      insert name inst.setted_fields := by
  simp [Instance.setattr, markKey, hsaved]

/-- C1 witness: the amended theorem applied to the `test_mutable` state. -/
theorem assignment_marks_regardless_of_value_witness :
    nodeAfterSave.saved = true ∧
    Instance.getattr nodeAfterSave "metadata" = some 7 ∧
    (Instance.setattr nodeAfterSave .concrete "metadata" 7).setted_fields =
      insert "metadata" nodeAfterSave.setted_fields :=
  ⟨rfl, by decide,
    assignment_marks_regardless_of_value nodeAfterSave "metadata" 7 rfl
      (by decide)⟩

/-- C2 counterexample: on a metadata object whose `get_date()` reading is the
falsy non-`None` value `""`, `Photo.date` returns that reading unchanged
instead of normalizing it to `None`: the date property performs no
normalization, so the claim fails at this input. -/
theorem date_not_normalized :
    PyVal.truthy (Photo.date ⟨mdFalsyDate⟩) = false ∧
    Photo.date ⟨mdFalsyDate⟩ ≠ PyVal.vnone := by
  decide

/-- C2 (amended): every Photo property except `date` normalizes a falsy (or,
for `aperture` and `focal_length`, non-positive) underlying reading to `None`,
and this layer raises no error (all accessors are total); `date`, however,
returns the underlying `get_date()` reading unchanged, so a falsy non-`None`
date reading is passed through rather than normalized. -/
theorem falsy_normalized_except_date (md : Metadata) :
    (optTruthy md.exiv2.get_fnumber = false → Photo.aperture ⟨md⟩ = none) ∧
    (optTruthy md.exiv2.get_exposure_time = false →
      Photo.exposure_time ⟨md⟩ = none) ∧
    (optTruthy md.exiv2.get_focal_length = false →
      Photo.focal_length ⟨md⟩ = none) ∧
    (optTruthy md.exiv2.get_pixel_height = false → Photo.height ⟨md⟩ = none) ∧
    (optTruthy md.exiv2.get_iso_speed = false → Photo.iso ⟨md⟩ = none) ∧
    (md.exiv2.get_orientation = none → Photo.orientation ⟨md⟩ = none) ∧
    (optTruthy md.exiv2.get_pixel_width = false → Photo.width ⟨md⟩ = none) ∧
    Photo.date ⟨md⟩ = md.get_date := by
  refine ⟨fun h => clean_number_falsy _ h, fun h => pyOrNone_falsy _ h,
    fun h => clean_number_falsy _ h, fun h => pyOrNone_falsy _ h,
    fun h => pyOrNone_falsy _ h, fun h => ?_, fun h => pyOrNone_falsy _ h,
    rfl⟩
  simp [Photo.orientation, h]

/-- C2 witness: the amended theorem applied to the all-falsy metadata. -/
theorem falsy_normalized_except_date_witness :
    Photo.aperture ⟨mdAllFalsy⟩ = none ∧
    Photo.exposure_time ⟨mdAllFalsy⟩ = none ∧
    Photo.focal_length ⟨mdAllFalsy⟩ = none ∧
    Photo.height ⟨mdAllFalsy⟩ = none ∧
    Photo.iso ⟨mdAllFalsy⟩ = none ∧
    Photo.orientation ⟨mdAllFalsy⟩ = none ∧
    Photo.width ⟨mdAllFalsy⟩ = none ∧
    Photo.date ⟨mdAllFalsy⟩ = PyVal.vnone :=
  ⟨(falsy_normalized_except_date mdAllFalsy).1 (by decide),
   (falsy_normalized_except_date mdAllFalsy).2.1 (by decide),
   (falsy_normalized_except_date mdAllFalsy).2.2.1 (by decide),
   (falsy_normalized_except_date mdAllFalsy).2.2.2.1 (by decide),
   (falsy_normalized_except_date mdAllFalsy).2.2.2.2.1 (by decide),
   (falsy_normalized_except_date mdAllFalsy).2.2.2.2.2.1 (by decide),
   (falsy_normalized_except_date mdAllFalsy).2.2.2.2.2.2.1 (by decide),
   (falsy_normalized_except_date mdAllFalsy).2.2.2.2.2.2.2⟩

/-- C3: when a violated combined-uniqueness constraint leaves exactly one
field implicated after removing the hidden fields, the check (used by both
`validate_unique` and `save`) raises a validation error attached to that
single field with the error code "unique", and the hook is not called. -/
theorem unique_one_field_after_hiding (uc hide : List String) (f : String)
    (h : uc.filter (fun x => !hide.contains x) = [f]) :
    performUniqueChecks uc hide = ⟨some ⟨[(f, ["unique"])], none⟩, 0⟩ := by
  unfold performUniqueChecks
  rw [h]

/-- C3 witness: the Keyword scenario of `test_save_map_to_1_field` — the
constraint on `created_by` and `label` with `created_by` hidden leaves only
`label`, which receives the "unique" error. -/
theorem unique_one_field_after_hiding_witness :
    List.filter (fun x => !(["created_by"].contains x))
      ["created_by", "label"] = ["label"] ∧
    performUniqueChecks ["created_by", "label"] ["created_by"] =
      ⟨some ⟨[("label", ["unique"])], none⟩, 0⟩ :=
  ⟨by decide,
    unique_one_field_after_hiding ["created_by", "label"] ["created_by"]
      "label" (by decide)⟩

/-- C4: when the hidden-field sequence is empty and the violated constraint
implicates at least two fields, the check raises a validation error attached
to the non-field-specific key `NON_FIELD_ERRORS` with code "unique_together"
and the `unique_check` parameter listing exactly the implicated field
names. -/
theorem unique_together_no_hidden (uc : List String) (h : 2 ≤ uc.length) :
    performUniqueChecks uc [] =
      ⟨some ⟨[(NON_FIELD_ERRORS, ["unique_together"])], some uc⟩, 0⟩ := by
  match uc, h with
  | a :: b :: rest, _ =>
      unfold performUniqueChecks
      rw [filter_no_hidden]

/-- C4 witness: the Keyword scenario of `test_save_map_to_multiple_fields` —
with no hidden fields, the constraint on `created_by` and `label` yields a
non-field "unique_together" error listing both fields. -/
theorem unique_together_no_hidden_witness :
    2 ≤ (["created_by", "label"] : List String).length ∧
    performUniqueChecks ["created_by", "label"] [] =
      ⟨some ⟨[(NON_FIELD_ERRORS, ["unique_together"])],
        some ["created_by", "label"]⟩, 0⟩ :=
  ⟨by decide, unique_together_no_hidden ["created_by", "label"] (by decide)⟩

/-- C5: when hiding removes every implicated field of the violated
constraint, no validation error is raised and the overridable
hidden-duplicate hook is called exactly once. -/
theorem unique_hidden_duplicate_hook (uc hide : List String)
    (h : uc.filter (fun x => !hide.contains x) = []) :
    (performUniqueChecks uc hide).error = none ∧
    (performUniqueChecks uc hide).hook_calls = 1 := by
  unfold performUniqueChecks
  rw [h]
  exact ⟨rfl, rfl⟩

/-- C5 witness: the Keyword scenario of `test_save_map_to_0_fields` — hiding
both `created_by` and `label` leaves no field, so nothing is raised and the
hook runs once. -/
theorem unique_hidden_duplicate_hook_witness :
    List.filter (fun x => !(["created_by", "label"].contains x))
      ["created_by", "label"] = [] ∧
    (performUniqueChecks ["created_by", "label"]
      ["created_by", "label"]).error = none ∧
    (performUniqueChecks ["created_by", "label"]
      ["created_by", "label"]).hook_calls = 1 :=
  ⟨by decide,
    unique_hidden_duplicate_hook ["created_by", "label"]
      ["created_by", "label"] (by decide)⟩

/-- C6 counterexample: on a never-persisted instance (the `Profile()` of
`test_required_one_to_one`, which asserts `_setted_fields == set()` after
`profile.user = self.user`), assigning a foreign-key attribute adds nothing:
`user_id` is not added to the dirty-key set, so the claim fails for
non-persisted instances. -/
theorem fk_assign_unsaved_not_marked :
    profileNew.saved = false ∧
    (Instance.setattr profileNew .foreignKey "user" 4).setted_fields = ∅ ∧
    "user_id" ∉ (Instance.setattr profileNew .foreignKey "user" 4).setted_fields := by
  decide

/-- C6 (amended): for every already-persisted instance, assigning a
foreign-key-valued attribute adds exactly the underlying identifier key
`name + "_id"`, and only that key, to the dirty-key set, and every
successful save leaves the dirty-key set empty; on an instance that has
never been saved, assignment adds nothing. -/
theorem fk_assign_marks_id_and_save_clears (inst : Instance) (name : String)
    (v : Ref) (hsaved : inst.saved = true) :
    (inst.setattr .foreignKey name v).setted_fields =
      insert (name ++ "_id") inst.setted_fields ∧
    ∀ other : Instance, (Instance.save other).setted_fields = ∅ :=
  ⟨by simp [Instance.setattr, markKey, hsaved], fun _ => rfl⟩

/-- C6 witness: the `test_foreign_key` scenario — assigning `parent` on a
persisted Node marks exactly `parent_id`, and saving the result clears the
set. -/
theorem fk_assign_marks_id_and_save_clears_witness :
    nodeFresh.saved = true ∧
    (Instance.setattr nodeFresh .foreignKey "parent" 3).setted_fields =
      insert ("parent" ++ "_id") nodeFresh.setted_fields ∧
    (Instance.save
      (Instance.setattr nodeFresh .foreignKey "parent" 3)).setted_fields = ∅ :=
  ⟨rfl, (fk_assign_marks_id_and_save_clears nodeFresh "parent" 3 rfl).1,
    (fk_assign_marks_id_and_save_clears nodeFresh "parent" 3 rfl).2 _⟩

/-- C7: assigning a many-to-many-style relation attribute never changes the
dirty-key set — such relations are excluded from tracking. -/
theorem m2m_assign_leaves_dirty_set_unchanged (inst : Instance)
    (name : String) (v : Ref) :
    (Instance.setattr inst .manyToMany name v).setted_fields =
      inst.setted_fields :=
  rfl

/-- C8: the `aperture` and `focal_length` properties return `None` whenever
the underlying reading is absent, zero or negative (`clean_number`), and the
`exposure_time`, `height`, `width` and `iso` properties return `None`
whenever the underlying reading is falsy (`x or None`). -/
theorem numeric_falsy_or_nonpos_to_none (md : Metadata) :
    (md.exiv2.get_fnumber = none → Photo.aperture ⟨md⟩ = none) ∧
    (∀ q : ℚ, md.exiv2.get_fnumber = some q → q ≤ 0 →
      Photo.aperture ⟨md⟩ = none) ∧
    (md.exiv2.get_focal_length = none → Photo.focal_length ⟨md⟩ = none) ∧
    (∀ q : ℚ, md.exiv2.get_focal_length = some q → q ≤ 0 →
      Photo.focal_length ⟨md⟩ = none) ∧
    (optTruthy md.exiv2.get_exposure_time = false →
      Photo.exposure_time ⟨md⟩ = none) ∧
    (optTruthy md.exiv2.get_pixel_height = false → Photo.height ⟨md⟩ = none) ∧
    (optTruthy md.exiv2.get_pixel_width = false → Photo.width ⟨md⟩ = none) ∧
    (optTruthy md.exiv2.get_iso_speed = false → Photo.iso ⟨md⟩ = none) := by
  refine ⟨fun h => ?_, fun q hq hle => ?_, fun h => ?_, fun q hq hle => ?_,
    fun h => pyOrNone_falsy _ h, fun h => pyOrNone_falsy _ h,
    fun h => pyOrNone_falsy _ h, fun h => pyOrNone_falsy _ h⟩
  · rw [Photo.aperture, h]; rfl
  · rw [Photo.aperture, hq]; exact clean_number_nonpos q hle
  · rw [Photo.focal_length, h]; rfl
  · rw [Photo.focal_length, hq]; exact clean_number_nonpos q hle

/-- C8 witness: the theorem applied to concrete metadata — absent readings
(`mdFalsyDate`) and negative or zero readings (`mdNegative`) all map to
`None`. -/
theorem numeric_falsy_or_nonpos_to_none_witness :
    Photo.aperture ⟨mdFalsyDate⟩ = none ∧
    Photo.aperture ⟨mdNegative⟩ = none ∧
    Photo.focal_length ⟨mdFalsyDate⟩ = none ∧
    Photo.focal_length ⟨mdNegative⟩ = none ∧
    Photo.exposure_time ⟨mdNegative⟩ = none ∧
    Photo.height ⟨mdNegative⟩ = none ∧
    Photo.width ⟨mdNegative⟩ = none ∧
    Photo.iso ⟨mdNegative⟩ = none :=
  ⟨(numeric_falsy_or_nonpos_to_none mdFalsyDate).1 (by decide),
   (numeric_falsy_or_nonpos_to_none mdNegative).2.1 (-1) (by decide)
     (by norm_num),
   (numeric_falsy_or_nonpos_to_none mdFalsyDate).2.2.1 (by decide),
   (numeric_falsy_or_nonpos_to_none mdNegative).2.2.2.1 (-3)
     (by decide) (by norm_num),
   (numeric_falsy_or_nonpos_to_none mdNegative).2.2.2.2.1 (by decide),
   (numeric_falsy_or_nonpos_to_none mdNegative).2.2.2.2.2.1 (by decide),
   (numeric_falsy_or_nonpos_to_none mdNegative).2.2.2.2.2.2.1 (by decide),
   (numeric_falsy_or_nonpos_to_none mdNegative).2.2.2.2.2.2.2 (by decide)⟩

/-- C9: `properties()` yields exactly one (name, value) pair per property
declared on the `Photo` class — the name list equals the declared property
names, which are pairwise distinct — and looking up each name yields exactly
the value of reading that property directly on the same instance. -/
theorem properties_matches_direct_access (p : Photo) :
    (Photo.properties p).map Prod.fst = Photo.propertyNames ∧
    Photo.propertyNames.Nodup ∧
    (Photo.properties p).lookup "aperture" = some (PyVal.ofNum p.aperture) ∧
    (Photo.properties p).lookup "date" = some p.date ∧
    (Photo.properties p).lookup "exposure_time" =
      some (PyVal.ofNum p.exposure_time) ∧
    (Photo.properties p).lookup "focal_length" =
      some (PyVal.ofNum p.focal_length) ∧
    (Photo.properties p).lookup "height" = some (PyVal.ofNum p.height) ∧
    (Photo.properties p).lookup "iso" = some (PyVal.ofNum p.iso) ∧
    (Photo.properties p).lookup "orientation" =
      some (PyVal.ofStr p.orientation) ∧
    (Photo.properties p).lookup "width" = some (PyVal.ofNum p.width) := by
  refine ⟨rfl, by decide, ?_, ?_, ?_, ?_, ?_, ?_, ?_, ?_⟩ <;> rfl

/-- C10: `aperture` and `focal_length` never return zero or a negative
number — any returned value is strictly positive, because `clean_number`
maps every falsy or non-positive reading to `None`. -/
theorem aperture_focal_none_or_positive (p : Photo) (q : ℚ) :
    (Photo.aperture p = some q → 0 < q) ∧
    (Photo.focal_length p = some q → 0 < q) :=
  ⟨fun h => clean_number_pos _ q h, fun h => clean_number_pos _ q h⟩

/-- C10 witness: on metadata with f-number 2 and focal length 3, the theorem
yields the positivity of both returned values. -/
theorem aperture_focal_none_or_positive_witness :
    Photo.aperture ⟨mdPositive⟩ = some 2 ∧ 0 < (2 : ℚ) ∧
    Photo.focal_length ⟨mdPositive⟩ = some 3 ∧ 0 < (3 : ℚ) :=
  ⟨by decide, (aperture_focal_none_or_positive ⟨mdPositive⟩ 2).1 (by decide),
   by decide, (aperture_focal_none_or_positive ⟨mdPositive⟩ 3).2 (by decide)⟩
